import Mathlib

/-!
Verification of the api-python repository: a small Flask HTTP API gateway
over three database backends (PostgreSQL, MySQL/MariaDB, MongoDB).

The development shallowly embeds the pure decision logic of `src/db.py`,
`src/db_logger.py` and the availability gate of `src/app.py`:
  * configuration snapshot (environment variables, `src/config.py`);
  * backend type resolution `get_db_type` and `is_configured`;
  * row/document normalization `_item_from_row` / `_mongo_doc_to_item`;
  * the bounded diagnostic log `add_log`;
  * `ping` and the public dispatcher operations, with the side-effecting
    database drivers represented by explicit outcome parameters;
  * the `before_request` availability gate and the two liveness routes.
-/

namespace ApiPython

/-! ## Python string primitives used by the source -/

/-- ASCII whitespace recognised by Python's `str.strip()` (the source only
ever strips environment-variable strings). -/
def isPySpace (c : Char) : Bool :=
  c = ' ' || c = '\t' || c = '\n' || c = '\r' || c = Char.ofNat 11 || c = Char.ofNat 12

/-- Python `str.strip()`: drop leading and trailing whitespace. -/
def pyStrip (s : String) : String :=
  ⟨((s.data.dropWhile isPySpace).reverse.dropWhile isPySpace).reverse⟩

/-- Python `str.upper()` on the ASCII letters that matter here. -/
def pyUpper (s : String) : String :=
  ⟨s.data.map Char.toUpper⟩

/-- Python truthiness of an optional string: `None` and `""` are falsy. -/
def pyTruthyStr : Option String → Bool
  | none => false
  | some s => !s.isEmpty

/-- Python `s or None`: an empty string collapses to `None`. -/
def strOrNone (s : String) : Option String :=
  if s.isEmpty then none else some s

/-- Python `int(s)` on a string: strip whitespace, optional sign, decimal
digits; any other shape raises `ValueError`, which we model as `none`. -/
def pyInt? (s : String) : Option Int :=
  let t := (pyStrip s).data
  let signDigits : Int × List Char :=
    match t with
    | '+' :: rest => (1, rest)
    | '-' :: rest => (-1, rest)
    | l => (1, l)
  if signDigits.2 ≠ [] ∧ signDigits.2.all Char.isDigit then
    some (signDigits.1 *
      (signDigits.2.foldl (fun acc c => acc * 10 + (c.toNat - '0'.toNat)) 0 : Nat))
  else none

/-! ## Configuration (`src/config.py`)

Environment variables read once at process start.  `os.environ.get` yields
`None` when a variable is unset, hence every field is an `Option String`. -/

structure Config where
  DB_TYPE : Option String
  DB_HOST : Option String
  DB_PORT : Option String
  DB_NAME : Option String
  DB_USER : Option String
  DB_PASSWORD : Option String
deriving DecidableEq

/-- The list `DB_TYPES = ["POSTGRESQL", "MYSQL", "MARIADB", "MONGODB"]` (src/db.py). -/
def DB_TYPES : List String := ["POSTGRESQL", "MYSQL", "MARIADB", "MONGODB"]

/-- The table `PORT_TO_TYPE = {5432: "POSTGRESQL", 3306: "MYSQL", 27017: "MONGODB"}`
(src/db.py); `dict.get` on a missing key yields `None`. -/
def PORT_TO_TYPE : Int → Option String
  | 5432 => some "POSTGRESQL"
  | 3306 => some "MYSQL"
  | 27017 => some "MONGODB"
  | _ => none

/-- The expression `(config_module.DB_TYPE or "").strip().upper() or None` (src/db.py line 26). -/
def explicitType (c : Config) : Option String :=
  strOrNone (pyUpper (pyStrip (c.DB_TYPE.getD "")))

/-- The port branch of `get_db_type` (src/db.py lines 29-33):
`port = int(DB_PORT) if DB_PORT else None` with `ValueError` caught as
`return None`, then `PORT_TO_TYPE.get(port) if port is not None else None`. -/
def portInferredType (c : Config) : Option String :=
  if pyTruthyStr c.DB_PORT then
    match pyInt? (c.DB_PORT.getD "") with
    | none => none
    | some p => PORT_TO_TYPE p
  else none

/-- Function `get_db_type` (src/db.py lines 25-33). -/
def get_db_type (c : Config) : Option String :=
  match explicitType c with
  | some e => if e ∈ DB_TYPES then some e else portInferredType c
  | none => portInferredType c

/-- Function `is_configured` (src/db.py lines 36-40):
`t = get_db_type(); if not t: return False; return bool(DB_HOST and DB_NAME)`. -/
def is_configured (c : Config) : Bool :=
  match get_db_type c with
  | none => false
  | some _ => pyTruthyStr c.DB_HOST && pyTruthyStr c.DB_NAME

end ApiPython

namespace ApiPython

/-! ## Claims C1 and C2 -/

/-- Example configuration used by witnesses: explicit type ` mysql `. -/
def cfgMysql : Config :=
  { DB_TYPE := some " mysql ", DB_HOST := some "h", DB_PORT := none,
    DB_NAME := some "d", DB_USER := none, DB_PASSWORD := none }

/-- C1 — Backend type resolution (`get_db_type`): if the explicit configured
type string, trimmed and upper-cased, is one of the four enumerated kinds, it
is returned; otherwise, if a numeric port is present, the type is inferred by
exact match against the fixed table {5432→POSTGRESQL, 3306→MYSQL,
27017→MONGODB}; for every other port value, a non-numeric port, or no port,
resolution yields `none`. -/
theorem C1_get_db_type_resolution (c : Config) :
    (∀ e, explicitType c = some e → e ∈ DB_TYPES → get_db_type c = some e) ∧
    ((∀ e, explicitType c = some e → e ∉ DB_TYPES) →
      ((pyTruthyStr c.DB_PORT = true →
          (∀ p, pyInt? (c.DB_PORT.getD "") = some p →
            get_db_type c = PORT_TO_TYPE p) ∧
          (pyInt? (c.DB_PORT.getD "") = none → get_db_type c = none)) ∧
       (pyTruthyStr c.DB_PORT = false → get_db_type c = none))) ∧
    (PORT_TO_TYPE 5432 = some "POSTGRESQL" ∧ PORT_TO_TYPE 3306 = some "MYSQL" ∧
     PORT_TO_TYPE 27017 = some "MONGODB" ∧
     ∀ p : Int, p ≠ 5432 → p ≠ 3306 → p ≠ 27017 → PORT_TO_TYPE p = none) := by
  refine ⟨?_, ?_, ?_⟩
  · intro e he hmem
    simp [get_db_type, he, hmem]
  · intro hnot
    have hport : get_db_type c = portInferredType c := by
      unfold get_db_type
      cases he : explicitType c with
      | none => rfl
      | some e =>
        have := hnot e he
        simp [this]
    constructor
    · intro htruthy
      constructor
      · intro p hp
        rw [hport]
        simp [portInferredType, htruthy, hp]
      · intro hp
        rw [hport]
        simp [portInferredType, htruthy, hp]
    · intro hfalse
      rw [hport]
      simp [portInferredType, hfalse]
  · refine ⟨rfl, rfl, rfl, ?_⟩
    intro p h1 h2 h3
    unfold PORT_TO_TYPE
    split
    · omega
    · omega
    · omega
    · rfl

/-- Witness for C1: the explicit string " mysql " trims and upper-cases to a
recognised kind, and `get_db_type` returns it. -/
theorem C1_witness : get_db_type cfgMysql = some "MYSQL" :=
  (C1_get_db_type_resolution cfgMysql).1 "MYSQL" (by decide) (by decide)

/-- C2 — `is_configured` is false whenever the resolved backend type is
undetermined, or the host is empty/absent, or the database name is
empty/absent; true in every other case, and user / password play no role. -/
theorem C2_is_configured_characterisation (c : Config) :
    (is_configured c = true ↔
      (get_db_type c).isSome = true ∧ pyTruthyStr c.DB_HOST = true ∧
        pyTruthyStr c.DB_NAME = true) ∧
    (∀ u p, is_configured { c with DB_USER := u, DB_PASSWORD := p } =
      is_configured c) := by
  constructor
  · unfold is_configured
    cases h : get_db_type c with
    | none => simp
    | some t => simp
  · intro u p
    have : get_db_type { c with DB_USER := u, DB_PASSWORD := p } =
        get_db_type c := rfl
    unfold is_configured
    rw [this]

/-- Witness for C2: a resolvable type plus non-empty host and database name
make the example configuration configured. -/
theorem C2_witness : is_configured cfgMysql = true :=
  (C2_is_configured_characterisation cfgMysql).1.mpr
    ⟨by decide, by decide, by decide⟩

end ApiPython

namespace ApiPython

/-! ## Python datetimes and row/document values (`_item_from_row`,
`_mongo_doc_to_item` in src/db.py) -/

/-- A Python `datetime.datetime`: naive when `tzoffsetMinutes = none`,
timezone-aware otherwise (offset in minutes). -/
structure PyDateTime where
  year : Nat
  month : Nat
  day : Nat
  hour : Nat
  minute : Nat
  second : Nat
  microsecond : Nat
  tzoffsetMinutes : Option Int
deriving DecidableEq

/-- Left-pad the decimal representation of `n` with zeros to width `w`. -/
def padNat (w : Nat) (n : Nat) : String :=
  let s := toString n
  ⟨List.replicate (w - s.length) '0' ++ s.data⟩

/-- Python `datetime.isoformat()`: `YYYY-MM-DDTHH:MM:SS`, `.ffffff` appended
when the microsecond field is non-zero, and a `±HH:MM` offset appended for
aware datetimes.  No `Z` suffix is ever produced. -/
def isoformat (d : PyDateTime) : String :=
  padNat 4 d.year ++ "-" ++ padNat 2 d.month ++ "-" ++ padNat 2 d.day ++ "T" ++
  padNat 2 d.hour ++ ":" ++ padNat 2 d.minute ++ ":" ++ padNat 2 d.second ++
  (if d.microsecond = 0 then "" else "." ++ padNat 6 d.microsecond) ++
  (match d.tzoffsetMinutes with
   | none => ""
   | some off =>
     (if off < 0 then "-" else "+") ++
       padNat 2 (off.natAbs / 60) ++ ":" ++ padNat 2 (off.natAbs % 60))

/-- Python `str(datetime)`: `isoformat(sep=' ')`. -/
def pyDatetimeStr (d : PyDateTime) : String :=
  padNat 4 d.year ++ "-" ++ padNat 2 d.month ++ "-" ++ padNat 2 d.day ++ " " ++
  padNat 2 d.hour ++ ":" ++ padNat 2 d.minute ++ ":" ++ padNat 2 d.second ++
  (if d.microsecond = 0 then "" else "." ++ padNat 6 d.microsecond) ++
  (match d.tzoffsetMinutes with
   | none => ""
   | some off =>
     (if off < 0 then "-" else "+") ++
       padNat 2 (off.natAbs / 60) ++ ":" ++ padNat 2 (off.natAbs % 60))

/-- The Python values that can appear in a row dict or document here:
`None`, strings, integers and datetimes.  Only datetimes have an
`isoformat` attribute. -/
inductive PyVal
  | vNone
  | vStr (s : String)
  | vInt (n : Int)
  | vDT (d : PyDateTime)
deriving DecidableEq

/-- Python truthiness of a `PyVal`. -/
def PyVal.truthy : PyVal → Bool
  | .vNone => false
  | .vStr s => !s.isEmpty
  | .vInt n => n ≠ 0
  | .vDT _ => true

/-- Python `a or b`. -/
def pyOr (a b : PyVal) : PyVal := if a.truthy then a else b

/-- Python `str()` on a `PyVal` (never applied to `None` in the source). -/
def pyStr : PyVal → String
  | .vNone => "None"
  | .vStr s => s
  | .vInt n => toString n
  | .vDT d => pyDatetimeStr d

/-- A Python dict with string keys, as an association list. -/
def Row := List (String × PyVal)

/-- Python `dict.get(k)`: first binding of `k`, else `None`. -/
def rget (r : Row) (k : String) : PyVal :=
  match r.find? (fun kv => kv.1 = k) with
  | some kv => kv.2
  | none => .vNone

/-- The canonical three-field item shape produced by every adapter:
`{"id": ..., "name": ..., "createdAt": ...}`. -/
structure Item where
  id : PyVal
  name : PyVal
  createdAt : Option String
deriving DecidableEq

/-- The `created` / `created_str` computation shared by both converters:
`isoformat()` when the value has that attribute, `str(...)` when it is not
`None`, else `None`. -/
def createdStr : PyVal → Option String
  | .vDT d => some (isoformat d)
  | .vNone => none
  | v => some (pyStr v)

/-- Function `_item_from_row` (src/db.py lines 43-55). -/
def _item_from_row (r : Row) : Item :=
  let created := pyOr (rget r "created_at") (rget r "createdAt")
  { id := rget r "id", name := rget r "name", createdAt := createdStr created }

/-- Function `_mongo_doc_to_item` (src/db.py lines 297-309). -/
def _mongo_doc_to_item (doc : Row) : Item :=
  let created := rget doc "createdAt"
  { id := rget doc "id", name := rget doc "name",
    createdAt := createdStr created }

end ApiPython

namespace ApiPython

/-! ## Claim C4 -/

/-- A naive timestamp as PostgreSQL/Mongo would hand back. -/
def dtExample : PyDateTime :=
  { year := 2024, month := 1, day := 1, hour := 0, minute := 0, second := 0,
    microsecond := 0, tzoffsetMinutes := none }

/-- A relational row carrying a backend timestamp. -/
def rowExample : Row :=
  [("id", .vInt 1), ("name", .vStr "widget"), ("created_at", .vDT dtExample)]

/-- Counterexample to C4: the row supplies a timestamp, yet the serialized
`createdAt` string is `"2024-01-01T00:00:00"`, which does not end in `Z` —
Python's `isoformat()` never appends a `Z`. -/
theorem C4_counterexample :
    rget rowExample "created_at" = .vDT dtExample ∧
    (_item_from_row rowExample).createdAt = some "2024-01-01T00:00:00" ∧
    ("2024-01-01T00:00:00".data.getLast? = some 'Z') = False := by
  refine ⟨by decide, by decide, by decide⟩

/-- C4 (amended) — Every Item produced by either converter has exactly the
three fields id, name, createdAt (the `Item` shape); `createdAt` is the
timestamp's `isoformat()` serialization (ISO-8601 *without* any appended `Z`)
when the backend supplies a timestamp, and is null when the backend returns
no value. -/
theorem C4_item_normalization (r doc : Row) :
    (∀ d, pyOr (rget r "created_at") (rget r "createdAt") = .vDT d →
      (_item_from_row r).createdAt = some (isoformat d)) ∧
    (pyOr (rget r "created_at") (rget r "createdAt") = .vNone →
      (_item_from_row r).createdAt = none) ∧
    (∀ d, rget doc "createdAt" = .vDT d →
      (_mongo_doc_to_item doc).createdAt = some (isoformat d)) ∧
    (rget doc "createdAt" = .vNone →
      (_mongo_doc_to_item doc).createdAt = none) ∧
    (_item_from_row r).id = rget r "id" ∧
    (_item_from_row r).name = rget r "name" := by
  refine ⟨?_, ?_, ?_, ?_, rfl, rfl⟩
  · intro d hd
    simp [_item_from_row, hd, createdStr]
  · intro hd
    simp [_item_from_row, hd, createdStr]
  · intro d hd
    simp [_mongo_doc_to_item, hd, createdStr]
  · intro hd
    simp [_mongo_doc_to_item, hd, createdStr]

/-- Witness for C4's amended theorem at the example row and an empty doc. -/
theorem C4_witness :
    (_item_from_row rowExample).createdAt = some (isoformat dtExample) ∧
    (_mongo_doc_to_item ([] : Row)).createdAt = none :=
  ⟨(C4_item_normalization rowExample []).1 dtExample (by decide),
   (C4_item_normalization rowExample []).2.2.2.1 (by decide)⟩

end ApiPython

namespace ApiPython

/-! ## Diagnostic log (`src/db_logger.py`) -/

/-- The constant `MAX_LOGS = 100`. -/
def MAX_LOGS : Nat := 100

/-- One diagnostic log entry `{time, msg, isError}`. -/
structure LogEntry where
  time : String
  msg : String
  isError : Bool
deriving DecidableEq

/-- The state change of `add_log` (src/db_logger.py lines 9-21) on the
`_logs` buffer: `_logs.append(entry)` followed by
`if len(_logs) > MAX_LOGS: del _logs[:len(_logs) - MAX_LOGS]`. -/
def addEntry (logs : List LogEntry) (e : LogEntry) : List LogEntry :=
  if (logs ++ [e]).length > MAX_LOGS then
    (logs ++ [e]).drop ((logs ++ [e]).length - MAX_LOGS)
  else logs ++ [e]

/-- Function `add_log(msg, is_error)` with the wall-clock timestamp passed
explicitly. -/
def add_log (now msg : String) (is_error : Bool) (logs : List LogEntry) :
    List LogEntry :=
  addEntry logs { time := now, msg := msg, isError := is_error }

theorem addEntry_suffix (es : List LogEntry) (e : LogEntry) :
    addEntry (es.drop (es.length - MAX_LOGS)) e =
      (es ++ [e]).drop (es.length + 1 - MAX_LOGS) := by
  have hM : MAX_LOGS = 100 := rfl
  unfold addEntry
  by_cases hn : es.length < MAX_LOGS
  · have h0 : es.length - MAX_LOGS = 0 := by omega
    rw [h0, List.drop_zero]
    have hlen : (es ++ [e]).length = es.length + 1 := by
      simp
    rw [if_neg (by rw [hlen]; omega)]
    have h1 : es.length + 1 - MAX_LOGS = 0 := by omega
    rw [h1, List.drop_zero]
  · have hge : MAX_LOGS ≤ es.length := by omega
    have hdlen : (es.drop (es.length - MAX_LOGS)).length = MAX_LOGS := by
      rw [List.length_drop]; omega
    have hlen : (es.drop (es.length - MAX_LOGS) ++ [e]).length = MAX_LOGS + 1 := by
      rw [List.length_append, hdlen]; rfl
    rw [hlen, if_pos (Nat.lt_succ_self MAX_LOGS)]
    have hone : MAX_LOGS + 1 - MAX_LOGS = 1 := by omega
    rw [hone]
    have hd1 : (es.drop (es.length - MAX_LOGS) ++ [e]).drop 1 =
        (es.drop (es.length - MAX_LOGS)).drop 1 ++ [e] := by
      refine List.drop_append_of_le_length ?_
      omega
    rw [hd1, List.drop_drop]
    have h2 : (es ++ [e]).drop (es.length + 1 - MAX_LOGS) =
        es.drop (es.length + 1 - MAX_LOGS) ++ [e] := by
      refine List.drop_append_of_le_length ?_
      omega
    rw [h2]
    congr 2
    omega

theorem foldl_addEntry_suffix (es : List LogEntry) :
    List.foldl addEntry [] es = es.drop (es.length - MAX_LOGS) := by
  induction es using List.reverseRecOn with
  | nil => simp
  | append_singleton es e ih =>
    rw [List.foldl_append, List.foldl_cons, List.foldl_nil, ih,
      addEntry_suffix]
    simp [List.length_append]

/-- C6 — Starting from the empty buffer, after any sequence of appends the
Diagnostic Log holds exactly the most recent (at most 100) entries in order:
it never exceeds 100 entries, eviction is FIFO (oldest first), relative
order is preserved, and after a 101st append the 1st entry is evicted. -/
theorem C6_log_buffer_bound (es : List LogEntry) :
    List.foldl addEntry [] es = es.drop (es.length - MAX_LOGS) ∧
    (List.foldl addEntry [] es).length ≤ MAX_LOGS ∧
    (es.length = MAX_LOGS + 1 → List.foldl addEntry [] es = es.drop 1) := by
  refine ⟨foldl_addEntry_suffix es, ?_, ?_⟩
  · rw [foldl_addEntry_suffix es, List.length_drop]
    omega
  · intro h
    rw [foldl_addEntry_suffix es, h]
    have hone : MAX_LOGS + 1 - MAX_LOGS = 1 := by omega
    rw [hone]

/-- A concrete sequence of 101 log entries. -/
def logSeq101 : List LogEntry :=
  (List.range (MAX_LOGS + 1)).map (fun i => ⟨"t", toString i, false⟩)

/-- Witness for C6: appending 101 concrete entries to the empty buffer
leaves exactly the last 100, the first entry evicted. -/
theorem C6_witness :
    List.foldl addEntry [] logSeq101 = logSeq101.drop 1 :=
  (C6_log_buffer_bound logSeq101).2.2 (by rfl)

end ApiPython

namespace ApiPython

/-! ## `ping` (src/db.py lines 343-382)

The driver calls (`SELECT 1` on a pooled/ per-request connection, the Mongo
`ping` command) perform network I/O; each is represented by an explicit
outcome: `.ok ()` when the query succeeds, `.error e` when it raises an
exception with message `e`.  `ping` additionally returns the chronological
list of entries it passed to `db_logger.add_log` during the call. -/

/-- Mutable process-wide state touched by `ping`: the `_ping_ok_logged`
latch and the `_logs` buffer. -/
structure ProcState where
  latch : Bool
  logs : List LogEntry
deriving DecidableEq

/-- Outcomes of the three liveness queries for one call. -/
structure PingOutcomes where
  pg : Except String Unit
  mysql : Except String Unit
  mongo : Except String Unit

/-- One backend branch of `ping`: run the liveness query; on success log
`okMsg` once per process (the `_ping_ok_logged` latch) and return `True`;
on exception `e` log `Ping failed: {e}` as an error and return `False`. -/
def pingAttempt (okMsg : String) (outcome : Except String Unit) (now : String)
    (s : ProcState) : Bool × ProcState × List LogEntry :=
  match outcome with
  | .error e =>
    (false, ⟨s.latch, add_log now ("Ping failed: " ++ e) true s.logs⟩,
      [⟨now, "Ping failed: " ++ e, true⟩])
  | .ok _ =>
    if s.latch then (true, s, [])
    else (true, ⟨true, add_log now okMsg false s.logs⟩, [⟨now, okMsg, false⟩])

/-- Function `ping` (src/db.py lines 343-382). -/
def ping (cfg : Config) (oc : PingOutcomes) (now : String) (s : ProcState) :
    Bool × ProcState × List LogEntry :=
  if is_configured cfg then
    match get_db_type cfg with
    | some "POSTGRESQL" => pingAttempt "Ping OK (PostgreSQL)" oc.pg now s
    | some "MYSQL" => pingAttempt "Ping OK (MySQL/MariaDB)" oc.mysql now s
    | some "MARIADB" => pingAttempt "Ping OK (MySQL/MariaDB)" oc.mysql now s
    | some "MONGODB" => pingAttempt "Ping OK (MongoDB)" oc.mongo now s
    | _ => (false, s, [])
  else (false, s, [])

end ApiPython

namespace ApiPython

/-! ## Claim C7 -/

/-- C7 — `ping()` never propagates an exception (its result is a plain
boolean plus state by construction): whenever the liveness query of the
resolved backend raises `e`, `ping` returns `false` and appends the entry
`Ping failed: {e}` (marked as an error) to the Diagnostic Log. -/
theorem C7_ping_catches_exceptions (cfg : Config) (oc : PingOutcomes)
    (now : String) (s : ProcState) (e : String)
    (hc : is_configured cfg = true) :
    (get_db_type cfg = some "POSTGRESQL" → oc.pg = .error e →
      ping cfg oc now s =
        (false, ⟨s.latch, add_log now ("Ping failed: " ++ e) true s.logs⟩,
          [⟨now, "Ping failed: " ++ e, true⟩])) ∧
    (get_db_type cfg = some "MYSQL" → oc.mysql = .error e →
      ping cfg oc now s =
        (false, ⟨s.latch, add_log now ("Ping failed: " ++ e) true s.logs⟩,
          [⟨now, "Ping failed: " ++ e, true⟩])) ∧
    (get_db_type cfg = some "MARIADB" → oc.mysql = .error e →
      ping cfg oc now s =
        (false, ⟨s.latch, add_log now ("Ping failed: " ++ e) true s.logs⟩,
          [⟨now, "Ping failed: " ++ e, true⟩])) ∧
    (get_db_type cfg = some "MONGODB" → oc.mongo = .error e →
      ping cfg oc now s =
        (false, ⟨s.latch, add_log now ("Ping failed: " ++ e) true s.logs⟩,
          [⟨now, "Ping failed: " ++ e, true⟩])) := by
  refine ⟨?_, ?_, ?_, ?_⟩ <;> intro ht hout <;>
    simp [ping, hc, ht, pingAttempt, hout]

/-- A MongoDB configuration reachable through explicit type. -/
def cfgMongo : Config :=
  { DB_TYPE := some "MONGODB", DB_HOST := some "h", DB_PORT := none,
    DB_NAME := some "d", DB_USER := none, DB_PASSWORD := none }

/-- Outcomes where the Mongo ping command raises `boom`. -/
def ocMongoFail : PingOutcomes :=
  { pg := .ok (), mysql := .ok (), mongo := .error "boom" }

/-- Witness for C7: with the Mongo liveness command raising `boom`, `ping`
returns `false` and logs the failure. -/
theorem C7_witness :
    ping cfgMongo ocMongoFail "t" ⟨false, []⟩ =
      (false, ⟨false, add_log "t" ("Ping failed: " ++ "boom") true []⟩,
        [⟨"t", "Ping failed: " ++ "boom", true⟩]) :=
  (C7_ping_catches_exceptions cfgMongo ocMongoFail "t" ⟨false, []⟩ "boom"
    (by decide)).2.2.2 (by decide) rfl

end ApiPython

namespace ApiPython

/-! ## Claim C8 -/

/-- The three success messages `ping` can log. -/
def pingOkMsgs : List String :=
  ["Ping OK (PostgreSQL)", "Ping OK (MySQL/MariaDB)", "Ping OK (MongoDB)"]

/-- Number of ping-success entries in a trace of appended log entries. -/
def countPingOk (tr : List LogEntry) : Nat :=
  tr.countP (fun en => decide (en.msg ∈ pingOkMsgs))

/-- Run a sequence of `ping` calls in one process, threading the latch and
log state, and summing the ping-success entries appended along the way. -/
def runPings (cfg : Config) (now : String) :
    ProcState → List PingOutcomes → ProcState × Nat
  | s, [] => (s, 0)
  | s, oc :: rest =>
    let r := ping cfg oc now s
    let tail := runPings cfg now r.2.1 rest
    (tail.1, countPingOk r.2.2 + tail.2)

/-- A failure entry never counts as a ping-success entry: the message
`Ping failed: {e}` differs from every success message at its 6th
character. -/
theorem pingFail_not_ok (now e : String) :
    countPingOk [⟨now, "Ping failed: " ++ e, true⟩] = 0 := by
  have hne : ∀ t : String, t.data[5]? = some 'O' → "Ping failed: " ++ e ≠ t := by
    intro t h5 h
    have hd := congrArg String.data h
    have happ : ("Ping failed: " ++ e).data = "Ping failed: ".data ++ e.data := by
      cases e
      rfl
    rw [happ] at hd
    have h5' : ("Ping failed: ".data ++ e.data)[5]? = some 'f' := by
      rw [List.getElem?_append_left (by decide)]
      decide
    rw [hd, h5] at h5'
    exact absurd h5' (by decide)
  have hmem : ("Ping failed: " ++ e) ∉ pingOkMsgs := by
    intro hm
    simp only [pingOkMsgs, List.mem_cons] at hm
    rcases hm with h | h | h | h
    · exact hne "Ping OK (PostgreSQL)" (by decide) h
    · exact hne "Ping OK (MySQL/MariaDB)" (by decide) h
    · exact hne "Ping OK (MongoDB)" (by decide) h
    · simp at h
  simp [countPingOk, hmem]

/-- The single-call budget inequality: each `ping` call appends at most the
latch budget worth of success entries, and whatever remains of the budget is
still available afterwards. -/
theorem ping_budget (cfg : Config) (oc : PingOutcomes) (now : String)
    (s : ProcState) :
    countPingOk (ping cfg oc now s).2.2 +
      (if (ping cfg oc now s).2.1.latch then 0 else 1) ≤
    (if s.latch then 0 else 1) := by
  unfold ping
  by_cases hc : is_configured cfg
  · simp only [hc, if_pos]
    have hbranch : ∀ okMsg outcome,
        countPingOk (pingAttempt okMsg outcome now s).2.2 +
          (if (pingAttempt okMsg outcome now s).2.1.latch then 0 else 1) ≤
        (if s.latch then 0 else 1) := by
      intro okMsg outcome
      cases outcome with
      | error e =>
        simp only [pingAttempt]
        rw [pingFail_not_ok]
        simp
      | ok u =>
        by_cases hl : s.latch = true
        · simp [pingAttempt, hl, countPingOk]
        · have hc1 : countPingOk [⟨now, okMsg, false⟩] ≤ 1 := by
            simp only [countPingOk, List.countP_cons, List.countP_nil]
            split <;> simp
          simp only [pingAttempt, hl]
          simp only [if_false, Bool.false_eq_true]
          simp
          omega
    cases hT : get_db_type cfg with
    | none => simp [countPingOk]
    | some t =>
      by_cases h1 : t = "POSTGRESQL"
      · subst h1; exact hbranch _ _
      · by_cases h2 : t = "MYSQL"
        · subst h2; exact hbranch _ _
        · by_cases h3 : t = "MARIADB"
          · subst h3; exact hbranch _ _
          · by_cases h4 : t = "MONGODB"
            · subst h4; exact hbranch _ _
            · simp [h1, h2, h3, h4, countPingOk]
  · simp only [hc]
    simp [countPingOk]

/-- Telescoped budget over a whole sequence of `ping` calls. -/
theorem runPings_budget (cfg : Config) (now : String)
    (ocs : List PingOutcomes) (s : ProcState) :
    (runPings cfg now s ocs).2 +
      (if (runPings cfg now s ocs).1.latch then 0 else 1) ≤
    (if s.latch then 0 else 1) := by
  induction ocs generalizing s with
  | nil => simp [runPings]
  | cons oc rest ih =>
    have hcall := ping_budget cfg oc now s
    have htail := ih (ping cfg oc now s).2.1
    simp only [runPings]
    omega

/-- C8 — One-shot ping-success latch: starting a process (latch unset, log
empty), over any sequence of `ping()` calls with any liveness outcomes, a
`Ping OK` entry is appended to the Diagnostic Log at most once. -/
theorem C8_ping_ok_logged_once (cfg : Config) (now : String)
    (ocs : List PingOutcomes) :
    (runPings cfg now ⟨false, []⟩ ocs).2 ≤ 1 := by
  have h := runPings_budget cfg now ocs ⟨false, []⟩
  simp at h
  omega

end ApiPython

namespace ApiPython

/-! ## Availability gate (`src/app.py` lines 87-118)

`get_access_denied_html()` renders a diagnostic HTML page from the display
environment and the Diagnostic Log; its output is passed in here as the
`deniedHtml` string, since no claim inspects the markup itself. -/

/-- A Flask `Response` as far as the claims observe it. -/
structure Response where
  status : Nat
  body : String
  mimetype : String
  headers : List (String × String)
deriving DecidableEq

/-- Log line of the configuration-absent denial (src/app.py line 103). -/
def accessDeniedNotConfiguredMsg : String :=
  "Access denied: DB not configured (DB_TYPE/DB_HOST/DB_NAME or DB_PORT for inference)"

/-- Log line of the failed-ping denial (src/app.py line 111). -/
def accessDeniedPingFailedMsg : String := "Access denied: DB ping failed"

/-- The denial response built in both gate branches (src/app.py lines
104-109 and 112-117): status 200, the diagnostic HTML page, and the
`X-Service-Status: unavailable` header. -/
def deniedResponse (html : String) : Response :=
  { status := 200, body := html, mimetype := "text/html; charset=utf-8",
    headers := [("X-Service-Status", "unavailable")] }

/-- Middleware `check_db_before_request` (src/app.py lines 97-118): `none` lets the
request proceed to its route handler, `some r` short-circuits with `r`. -/
def check_db_before_request (path : String) (cfg : Config) (oc : PingOutcomes)
    (now deniedHtml : String) (s : ProcState) : Option Response × ProcState :=
  if path = "/ok" ∨ path = "/gateway-timeout" then (none, s)
  else if is_configured cfg = false then
    (some (deniedResponse deniedHtml),
      ⟨s.latch, add_log now accessDeniedNotConfiguredMsg false s.logs⟩)
  else
    if (ping cfg oc now s).1 = false then
      (some (deniedResponse deniedHtml),
        ⟨(ping cfg oc now s).2.1.latch,
          add_log now accessDeniedPingFailedMsg false (ping cfg oc now s).2.1.logs⟩)
    else (none, (ping cfg oc now s).2.1)

/-- The two always-on liveness routes (src/app.py lines 87-94); every other
path is served by its registered handler, abstracted as `fallback`. -/
def routeFixed (path : String) (fallback : Response) : Response :=
  if path = "/ok" then
    { status := 200, body := "OK", mimetype := "text/plain", headers := [] }
  else if path = "/gateway-timeout" then
    { status := 504, body := "Gateway Timeout", mimetype := "text/plain",
      headers := [] }
  else fallback

/-- Flask request processing: run the `before_request` gate; a returned
response short-circuits, otherwise dispatch to the route handler. -/
def handleRequest (path : String) (cfg : Config) (oc : PingOutcomes)
    (now deniedHtml : String) (fallback : Response) (s : ProcState) :
    Response × ProcState :=
  match check_db_before_request path cfg oc now deniedHtml s with
  | (some r, s') => (r, s')
  | (none, s') => (routeFixed path fallback, s')

end ApiPython

namespace ApiPython

/-! ## Claims C3 and C10 -/

/-- C3 — For every request whose path is neither `/ok` nor
`/gateway-timeout`, if configuration is absent the gate logs the
access-denied diagnostic event and responds with status 200 and the
diagnostic HTML page, the route handler (`fallback`) never being reached;
`/ok` always returns plain-text `OK` with status 200 and
`/gateway-timeout` always returns plain-text `Gateway Timeout` with status
504, bypassing the gate regardless of configuration, ping outcome or
state. -/
theorem C3_gate_denial_and_liveness (path : String) (cfg : Config)
    (oc : PingOutcomes) (now deniedHtml : String) (fallback : Response)
    (s : ProcState) :
    (path ≠ "/ok" → path ≠ "/gateway-timeout" → is_configured cfg = false →
      handleRequest path cfg oc now deniedHtml fallback s =
        (deniedResponse deniedHtml,
          ⟨s.latch, add_log now accessDeniedNotConfiguredMsg false s.logs⟩) ∧
      (deniedResponse deniedHtml).status = 200 ∧
      (deniedResponse deniedHtml).body = deniedHtml ∧
      (deniedResponse deniedHtml).mimetype = "text/html; charset=utf-8") ∧
    handleRequest "/ok" cfg oc now deniedHtml fallback s =
      ({ status := 200, body := "OK", mimetype := "text/plain",
         headers := [] }, s) ∧
    handleRequest "/gateway-timeout" cfg oc now deniedHtml fallback s =
      ({ status := 504, body := "Gateway Timeout", mimetype := "text/plain",
         headers := [] }, s) := by
  refine ⟨?_, ?_, ?_⟩
  · intro h1 h2 hcfg
    refine ⟨?_, rfl, rfl, rfl⟩
    simp [handleRequest, check_db_before_request, h1, h2, hcfg]
  · simp [handleRequest, check_db_before_request, routeFixed]
  · simp [handleRequest, check_db_before_request, routeFixed]

/-- A configuration with every environment variable unset. -/
def cfgUnset : Config :=
  { DB_TYPE := none, DB_HOST := none, DB_PORT := none, DB_NAME := none,
    DB_USER := none, DB_PASSWORD := none }

/-- A fallback response standing for an arbitrary route handler. -/
def fallbackResp : Response :=
  { status := 200, body := "items", mimetype := "application/json",
    headers := [] }

/-- Witness for C3: with no configuration, a request to `/api/items` is
answered by the gate itself with the diagnostic page and a logged denial. -/
theorem C3_witness :
    handleRequest "/api/items" cfgUnset ocMongoFail "t" "D" fallbackResp
        ⟨false, []⟩ =
      (deniedResponse "D",
        ⟨false, add_log "t" accessDeniedNotConfiguredMsg false []⟩) :=
  ((C3_gate_denial_and_liveness "/api/items" cfgUnset ocMongoFail "t" "D"
      fallbackResp ⟨false, []⟩).1 (by decide) (by decide) (by decide)).1

/-- C10 — Every denial response produced by the availability gate (whether
for absent configuration or for a failed ping) carries the header
`X-Service-Status: unavailable` alongside its 200 status. -/
theorem C10_denial_carries_header (path : String) (cfg : Config)
    (oc : PingOutcomes) (now deniedHtml : String) (s : ProcState)
    (r : Response)
    (h : (check_db_before_request path cfg oc now deniedHtml s).1 = some r) :
    r.status = 200 ∧ ("X-Service-Status", "unavailable") ∈ r.headers := by
  unfold check_db_before_request at h
  split at h
  · simp at h
  · split at h
    · simp at h
      subst h
      exact ⟨rfl, by simp [deniedResponse]⟩
    · split at h
      · simp at h
        subst h
        exact ⟨rfl, by simp [deniedResponse]⟩
      · simp at h

/-- Witness for C10: the concrete denial produced for `/api/items` with no
configuration indeed carries the header. -/
theorem C10_witness :
    (deniedResponse "D").status = 200 ∧
      ("X-Service-Status", "unavailable") ∈ (deniedResponse "D").headers :=
  C10_denial_carries_header "/api/items" cfgUnset ocMongoFail "t" "D"
    ⟨false, []⟩ (deniedResponse "D") (by decide)

end ApiPython

namespace ApiPython

/-! ## Public dispatcher operations (`src/db.py` lines 386-443)

Each backend adapter performs network I/O; an adapter's behaviour for one
call is passed in as an `Except String α`: `.ok v` when it returns `v`,
`.error e` when it raises an exception with message `e`.  `get_tables`
catches exceptions and converts them to `{error}` results; the item
operations let them propagate (`.error` results). -/

/-- The value returned by `get_tables`: a table list or an `{error}` dict. -/
inductive TablesResult
  | tables (names : List String)
  | error (msg : String)
deriving DecidableEq

/-- Not-configured error message of `get_tables` (src/db.py lines 388-390). -/
def dbNotConfiguredMsg : String :=
  "DB가 설정되지 않았습니다. DB_TYPE, DB_HOST, DB_NAME 등 환경 변수를 확인하세요."

/-- Unsupported-type error message of `get_tables` (src/db.py lines 399-401). -/
def unsupportedTypeMsg : String :=
  "지원하지 않는 DB_TYPE입니다. POSTGRESQL, MYSQL, MARIADB, MONGODB 중 하나를 사용하세요."

/-- The `try` body of `get_tables`: a successful adapter call yields the
table list, an exception is caught as `{"error": str(e)}`. -/
def tablesOf : Except String (List String) → TablesResult
  | .ok ts => .tables ts
  | .error e => .error e

/-- Function `get_tables` (src/db.py lines 386-403). -/
def get_tables (cfg : Config) (pg mysql mongo : Except String (List String)) :
    TablesResult :=
  if is_configured cfg = false then .error dbNotConfiguredMsg
  else
    match get_db_type cfg with
    | some "POSTGRESQL" => tablesOf pg
    | some "MYSQL" => tablesOf mysql
    | some "MARIADB" => tablesOf mysql
    | some "MONGODB" => tablesOf mongo
    | _ => .error unsupportedTypeMsg

/-- Function `get_items` (src/db.py lines 406-416): `None` when not configured,
adapter exceptions propagate. -/
def get_items (cfg : Config) (pg mysql mongo : Except String (List Item)) :
    Except String (Option (List Item)) :=
  if is_configured cfg = false then .ok none
  else
    match get_db_type cfg with
    | some "POSTGRESQL" => pg.map some
    | some "MYSQL" => mysql.map some
    | some "MARIADB" => mysql.map some
    | some "MONGODB" => mongo.map some
    | _ => .ok none

/-- Function `get_item_by_id` (src/db.py lines 419-429). -/
def get_item_by_id (cfg : Config) (id : Int)
    (pg mysql mongo : Except String (Option Item)) :
    Except String (Option Item) :=
  if is_configured cfg = false then .ok none
  else
    match get_db_type cfg with
    | some "POSTGRESQL" => pg
    | some "MYSQL" => mysql
    | some "MARIADB" => mysql
    | some "MONGODB" => mongo
    | _ => .ok none

/-- Function `create_item` (src/db.py lines 432-442). -/
def create_item (cfg : Config) (name : String)
    (pg mysql mongo : Except String Item) : Except String (Option Item) :=
  if is_configured cfg = false then .ok none
  else
    match get_db_type cfg with
    | some "POSTGRESQL" => pg.map some
    | some "MYSQL" => mysql.map some
    | some "MARIADB" => mysql.map some
    | some "MONGODB" => mongo.map some
    | _ => .ok none

end ApiPython

namespace ApiPython

/-! ## Claim C5 -/

/-- C5 — When the resolved backend type is undetermined, every public
dispatcher operation returns its structured "not configured" result —
`{error}` for `get_tables`, `None` for the item operations, `False` for
`ping` — without attempting any database connection: the results do not
depend on any adapter outcome and `ping` leaves the process state
untouched, appending nothing to the log. -/
theorem C5_undetermined_short_circuit (cfg : Config)
    (hu : get_db_type cfg = none) :
    (∀ pg mysql mongo, get_tables cfg pg mysql mongo =
      .error dbNotConfiguredMsg) ∧
    (∀ pg mysql mongo, get_items cfg pg mysql mongo = .ok none) ∧
    (∀ id pg mysql mongo, get_item_by_id cfg id pg mysql mongo = .ok none) ∧
    (∀ name pg mysql mongo, create_item cfg name pg mysql mongo = .ok none) ∧
    (∀ oc now s, ping cfg oc now s = (false, s, [])) := by
  have hnc : is_configured cfg = false := by
    unfold is_configured
    rw [hu]
  refine ⟨?_, ?_, ?_, ?_, ?_⟩
  · intro pg mysql mongo
    simp [get_tables, hnc]
  · intro pg mysql mongo
    simp [get_items, hnc]
  · intro id pg mysql mongo
    simp [get_item_by_id, hnc]
  · intro name pg mysql mongo
    simp [create_item, hnc]
  · intro oc now s
    simp [ping, hnc]

/-- Witness for C5: with every variable unset the type is undetermined and
all five operations short-circuit. -/
theorem C5_witness :
    get_tables cfgUnset (.ok []) (.ok []) (.ok []) =
      .error dbNotConfiguredMsg ∧
    get_items cfgUnset (.ok []) (.ok []) (.ok []) = .ok none ∧
    get_item_by_id cfgUnset 1 (.ok none) (.ok none) (.ok none) = .ok none ∧
    create_item cfgUnset "w" (.error "x") (.error "x") (.error "x") =
      .ok none ∧
    ping cfgUnset ocMongoFail "t" ⟨false, []⟩ = (false, ⟨false, []⟩, []) :=
  have h := C5_undetermined_short_circuit cfgUnset (by decide)
  ⟨h.1 _ _ _, h.2.1 _ _ _, h.2.2.1 1 _ _ _, h.2.2.2.1 "w" _ _ _,
    h.2.2.2.2 ocMongoFail "t" ⟨false, []⟩⟩

end ApiPython

namespace ApiPython

/-! ## MongoDB items adapter (`src/db.py` lines 312-339)

The `items` collection holds the documents this adapter itself inserts:
`{"id": int, "name": str, "createdAt": datetime}` (plus possibly a missing
timestamp), kept in insertion order. -/

/-- A document of the `items` collection. -/
structure MongoDoc where
  id : Int
  name : String
  createdAt : Option PyDateTime
deriving DecidableEq

/-- View a document as the dict consumed by `_mongo_doc_to_item`. -/
def MongoDoc.toRow (d : MongoDoc) : Row :=
  [("id", .vInt d.id), ("name", .vStr d.name),
   ("createdAt", match d.createdAt with | some t => .vDT t | none => .vNone)]

/-- Model of `col.find_one(sort=[("id", -1)])`: a document of maximal `id`, `None`
on an empty collection. -/
def findOneSortIdDesc : List MongoDoc → Option MongoDoc
  | [] => none
  | d :: ds =>
    match findOneSortIdDesc ds with
    | none => some d
    | some m => if m.id ≤ d.id then some d else some m

/-- Function `_mongo_create_item` (src/db.py lines 332-339): compute
`(max existing id) + 1` (1 on an empty collection), insert the document,
return its normalized item. -/
def _mongo_create_item (coll : List MongoDoc) (name : String)
    (now : PyDateTime) : Item × List MongoDoc :=
  let next_id : Int :=
    match findOneSortIdDesc coll with
    | some last => last.id + 1
    | none => 1
  let doc : MongoDoc := { id := next_id, name := name, createdAt := some now }
  (_mongo_doc_to_item doc.toRow, coll ++ [doc])

/-- Stable insertion into an id-ascending list. -/
def insertById (d : MongoDoc) : List MongoDoc → List MongoDoc
  | [] => [d]
  | x :: xs => if d.id ≤ x.id then d :: x :: xs else x :: insertById d xs

/-- Model of `col.find({}).sort("id", 1)`: the collection sorted by `id` ascending. -/
def sortById (coll : List MongoDoc) : List MongoDoc :=
  coll.foldr insertById []

/-- Function `_mongo_get_items` (src/db.py lines 312-316). -/
def _mongo_get_items (coll : List MongoDoc) : List Item :=
  (sortById coll).map (fun d => _mongo_doc_to_item d.toRow)

theorem findOneSortIdDesc_eq_none (coll : List MongoDoc) :
    findOneSortIdDesc coll = none ↔ coll = [] := by
  cases coll with
  | nil => simp [findOneSortIdDesc]
  | cons d ds =>
    simp only [findOneSortIdDesc]
    constructor
    · intro h
      cases hds : findOneSortIdDesc ds with
      | none => rw [hds] at h; exact absurd h (by simp)
      | some m =>
        rw [hds] at h
        by_cases hle : m.id ≤ d.id <;> simp [hle] at h
    · intro h
      exact absurd h (by simp)

theorem findOneSortIdDesc_max (coll : List MongoDoc) (m : MongoDoc)
    (h : findOneSortIdDesc coll = some m) :
    m ∈ coll ∧ ∀ x ∈ coll, x.id ≤ m.id := by
  induction coll generalizing m with
  | nil => simp [findOneSortIdDesc] at h
  | cons d ds ih =>
    simp only [findOneSortIdDesc] at h
    cases hds : findOneSortIdDesc ds with
    | none =>
      rw [hds] at h
      have hnil : ds = [] := (findOneSortIdDesc_eq_none ds).mp hds
      subst hnil
      simp at h
      subst h
      refine ⟨List.mem_cons_self _ _, ?_⟩
      intro x hx
      rcases List.mem_cons.mp hx with rfl | hx'
      · exact le_refl _
      · simp at hx'
    | some m0 =>
      rw [hds] at h
      obtain ⟨hm0, hbound⟩ := ih m0 hds
      by_cases hle : m0.id ≤ d.id
      · simp [hle] at h
        subst h
        refine ⟨List.mem_cons_self _ _, ?_⟩
        intro x hx
        rcases List.mem_cons.mp hx with rfl | hx'
        · exact le_refl _
        · exact le_trans (hbound x hx') hle
      · simp [hle] at h
        subst h
        refine ⟨List.mem_cons_of_mem _ hm0, ?_⟩
        intro x hx
        rcases List.mem_cons.mp hx with rfl | hx'
        · omega
        · exact hbound x hx'

theorem mem_insertById (d y : MongoDoc) (l : List MongoDoc) :
    y ∈ insertById d l ↔ y = d ∨ y ∈ l := by
  induction l with
  | nil => simp [insertById]
  | cons x xs ih =>
    simp only [insertById]
    by_cases hle : d.id ≤ x.id
    · rw [if_pos hle]
      simp [List.mem_cons]
    · rw [if_neg hle]
      simp only [List.mem_cons, ih]
      tauto

theorem pairwise_insertById (d : MongoDoc) (l : List MongoDoc)
    (h : l.Pairwise (fun a b => a.id ≤ b.id)) :
    (insertById d l).Pairwise (fun a b => a.id ≤ b.id) := by
  induction l with
  | nil => simp [insertById]
  | cons x xs ih =>
    rw [List.pairwise_cons] at h
    obtain ⟨hx, hxs⟩ := h
    simp only [insertById]
    by_cases hle : d.id ≤ x.id
    · rw [if_pos hle, List.pairwise_cons]
      refine ⟨?_, List.pairwise_cons.mpr ⟨hx, hxs⟩⟩
      intro y hy
      rcases List.mem_cons.mp hy with rfl | hy'
      · exact hle
      · exact le_trans hle (hx y hy')
    · rw [if_neg hle, List.pairwise_cons]
      refine ⟨?_, ih hxs⟩
      intro y hy
      rcases (mem_insertById d y xs).mp hy with rfl | hy'
      · omega
      · exact hx y hy'

theorem perm_insertById (d : MongoDoc) (l : List MongoDoc) :
    (insertById d l).Perm (d :: l) := by
  induction l with
  | nil => simp [insertById]
  | cons x xs ih =>
    simp only [insertById]
    by_cases hle : d.id ≤ x.id
    · rw [if_pos hle]
    · rw [if_neg hle]
      exact (List.Perm.cons x ih).trans (List.Perm.swap d x xs)

theorem sortById_pairwise (coll : List MongoDoc) :
    (sortById coll).Pairwise (fun a b => a.id ≤ b.id) := by
  induction coll with
  | nil => simp [sortById]
  | cons d ds ih => exact pairwise_insertById d _ ih

theorem sortById_perm (coll : List MongoDoc) : (sortById coll).Perm coll := by
  induction coll with
  | nil => simp [sortById]
  | cons d ds ih =>
    exact (perm_insertById d (sortById ds)).trans (List.Perm.cons d ih)

end ApiPython

namespace ApiPython

/-! ## Claim C9 -/

/-- C9 — The document-store adapter assigns the id of a created item as
(maximum existing id in the collection) + 1, and 1 when the collection is
empty; and `_mongo_get_items` returns the collection's items sorted by id
in ascending order. -/
theorem C9_mongo_id_assignment_and_sort (coll : List MongoDoc)
    (name : String) (now : PyDateTime) :
    (coll = [] → (_mongo_create_item coll name now).1.id = .vInt 1) ∧
    (∀ mx : Int, mx ∈ coll.map MongoDoc.id →
      (∀ i ∈ coll.map MongoDoc.id, i ≤ mx) →
      (_mongo_create_item coll name now).1.id = .vInt (mx + 1)) ∧
    (sortById coll).Pairwise (fun a b => a.id ≤ b.id) ∧
    (sortById coll).Perm coll ∧
    _mongo_get_items coll =
      (sortById coll).map (fun d => _mongo_doc_to_item d.toRow) := by
  refine ⟨?_, ?_, sortById_pairwise coll, sortById_perm coll, rfl⟩
  · intro h
    subst h
    rfl
  · intro mx hmx hbound
    obtain ⟨w, hw, hwid⟩ := List.mem_map.mp hmx
    cases hfind : findOneSortIdDesc coll with
    | none =>
      have : coll = [] := (findOneSortIdDesc_eq_none coll).mp hfind
      subst this
      simp at hw
    | some m =>
      obtain ⟨hm, hmax⟩ := findOneSortIdDesc_max coll m hfind
      have h1 : m.id ≤ mx := hbound m.id (List.mem_map.mpr ⟨m, hm, rfl⟩)
      have h2 : mx ≤ m.id := hwid ▸ hmax w hw
      have hid : m.id = mx := le_antisymm h1 h2
      simp only [_mongo_create_item, hfind, hid]
      rfl

/-- A concrete two-document collection for the C9 witness. -/
def collExample : List MongoDoc :=
  [{ id := 2, name := "a", createdAt := none },
   { id := 5, name := "b", createdAt := none }]

/-- Witness for C9: creating into `collExample` (maximum id 5) assigns
id 6. -/
theorem C9_witness :
    (_mongo_create_item collExample "w" dtExample).1.id = .vInt 6 :=
  (C9_mongo_id_assignment_and_sort collExample "w" dtExample).2.1 5
    (by decide) (by decide)

end ApiPython
